import Mathlib

/-!
Shallow embedding of the notes CRUD backend: the Note model and input
schemas (src/models/notes.model.go) and the five request handlers
(controllers package). Store interactions (gorm calls) are passed in as
explicit outcome values, so each handler is a pure function from the
decoded request and the store outcome to the HTTP response.
-/

set_option maxHeartbeats 1000000

namespace GoNotes

/-- Persisted entity models.Note. The UUID id is modelled as a String and
each time.Time as a Nat tick. -/
structure Note where
  id : String
  title : String
  content : String
  category : String
  published : Bool
  createdAt : Nat
  updatedAt : Nat
deriving DecidableEq, Repr

/-- models.CreateNoteSchema: title and content carry the required rule. -/
structure CreateNoteSchema where
  title : String
  content : String
  category : String
  published : Bool
deriving DecidableEq, Repr

/-- models.UpdateNoteSchema: published is a Bool pointer, so absence is
distinguishable from an explicit false. -/
structure UpdateNoteSchema where
  title : String
  content : String
  category : String
  published : Option Bool
deriving DecidableEq, Repr

/-- models.ErrorResponse: one field violation from the validator. -/
structure ErrorResponse where
  field : String
  tag : String
  value : String
deriving DecidableEq, Repr

/-- models.ValidateStruct specialised to CreateNoteSchema: the validator
required rule fails exactly on the zero value, which for a string field is
the empty string; the violation records the struct namespace, the tag and
the (empty) rule parameter. -/
def validateCreateNote (p : CreateNoteSchema) : List ErrorResponse :=
  (if p.title = "" then [⟨"CreateNoteSchema.Title", "required", ""⟩] else []) ++
  (if p.content = "" then [⟨"CreateNoteSchema.Content", "required", ""⟩] else [])

/-- The JSON body of a handler response: the fail/error envelope, the bare
violation list returned on validation failure, the two success shapes, or
the empty body of a 204. -/
inductive Body where
  | envelope (status message : String)
  | violations (errs : List ErrorResponse)
  | noteData (status : String) (note : Note)
  | listData (status : String) (results : Nat) (notes : List Note)
  | empty
deriving DecidableEq, Repr

/-- An HTTP response: status code plus JSON body. -/
structure Response where
  code : Nat
  body : Body
deriving DecidableEq, Repr

/-- Whether a body has the uniform error envelope shape, a status field
plus a message field. -/
def isEnvelope : Body → Bool
  | .envelope _ _ => true
  | _ => false

/-- Outcome of DB.Create: success populates the generated id, failure
carries the error message text. -/
inductive InsertOutcome where
  | ok (generatedId : String)
  | fail (msg : String)
deriving DecidableEq, Repr

/-- Outcome of DB.First when looking a note up by id: the row, the
gorm.ErrRecordNotFound sentinel, or another store error. -/
inductive FindResult where
  | found (note : Note)
  | notFound
  | storeErr (msg : String)
deriving DecidableEq, Repr

/-- Outcome of the DB.Model(&note).Updates(...) write. -/
inductive UpdateWriteResult where
  | ok
  | storeErr (msg : String)
deriving DecidableEq, Repr

/-- Result of DB.Delete: the RowsAffected count and the Error field. -/
structure DeleteResult where
  rowsAffected : Nat
  error : Option String
deriving DecidableEq, Repr

/-- Whether pat is a leading segment of l, character by character. -/
def hasPre : List Char → List Char → Bool
  | [], _ => true
  | _ :: _, [] => false
  | a :: as, b :: bs => a == b && hasPre as bs

/-- Whether pat occurs contiguously anywhere inside hay, the semantics of
strings.Contains. -/
def subList : List Char → List Char → Bool
  | pat, [] => pat.isEmpty
  | pat, b :: bs => hasPre pat (b :: bs) || subList pat bs

/-- The substring CreateNoteHandler searches for inside the insert error
message to recognise a uniqueness-constraint conflict. -/
def dupKeyMsg : String := "duplicate key value violates unique"

/-- strings.Contains(err.Error(), dupKeyMsg) from CreateNoteHandler. -/
def containsDupKey (msg : String) : Bool :=
  subList dupKeyMsg.toList msg.toList

/-- Whether c is an ASCII decimal digit. -/
def isDigitCh (c : Char) : Bool := ('0' ≤ c) && (c ≤ '9')

/-- Whether every character of l is a decimal digit. -/
def allDigits : List Char → Bool
  | [] => true
  | c :: cs => isDigitCh c && allDigits cs

/-- A nonempty run of decimal digits. -/
def digitsNonempty (l : List Char) : Bool := !l.isEmpty && allDigits l

/-- Decimal value of a digit run, accumulator style. -/
def digitsVal : List Char → Nat → Nat
  | [], acc => acc
  | c :: cs, acc => digitsVal cs (acc * 10 + (c.toNat - '0'.toNat))

def intMax64 : Int := 2 ^ 63 - 1

def intMin64 : Int := -(2 ^ 63)

/-- Saturation at the int64 bounds, as strconv returns on a range error. -/
def clamp64 (v : Int) : Int :=
  if v > intMax64 then intMax64 else if v < intMin64 then intMin64 else v

/-- Core of strconv.Atoi on the character list: an optional sign followed
by at least one digit parses (saturating at the int64 bounds on a range
error); anything else is a syntax error, whose returned value is 0. -/
def atoiCore (l : List Char) : Int :=
  match l with
  | [] => 0
  | c :: rest =>
    if c = '+' then (if digitsNonempty rest then clamp64 (digitsVal rest 0) else 0)
    else if c = '-' then
      (if digitsNonempty rest then clamp64 (-((digitsVal rest 0 : Int))) else 0)
    else (if digitsNonempty (c :: rest) then clamp64 (digitsVal (c :: rest) 0) else 0)

/-- Whether strconv.Atoi succeeds syntactically on l. -/
def atoiValidCore (l : List Char) : Bool :=
  match l with
  | [] => false
  | c :: rest =>
    if c = '+' then digitsNonempty rest
    else if c = '-' then digitsNonempty rest
    else digitsNonempty (c :: rest)

/-- strconv.Atoi as used by FindNotes, which discards the error return and
keeps only the integer. -/
def goAtoi (s : String) : Int := atoiCore s.toList

/-- Whether the string is syntactically numeric for strconv.Atoi. -/
def goAtoiValid (s : String) : Bool := atoiValidCore s.toList

/-- controllers.CreateNoteHandler: decode, validate, build the entity with
both timestamps set to now, insert, and map an insert failure to 409 when
its message mentions the duplicate-key violation and to 502 otherwise. -/
def CreateNoteHandler (decoded : Except String CreateNoteSchema) (now : Nat)
    (ins : InsertOutcome) : Response :=
  match decoded with
  | .error e => ⟨400, .envelope "fail" e⟩
  | .ok payload =>
    if validateCreateNote payload ≠ [] then
      ⟨400, .violations (validateCreateNote payload)⟩
    else
      match ins with
      | .fail msg =>
        if containsDupKey msg then
          ⟨409, .envelope "fail" "Title already exists, please use another title"⟩
        else
          ⟨502, .envelope "error" msg⟩
      | .ok gid =>
        ⟨201, .noteData "success"
          ⟨gid, payload.title, payload.content, payload.category, payload.published,
            now, now⟩⟩

/-- Fiber c.Query with a default value: the default is substituted when
the parameter is absent or present with an empty value. -/
def queryOr (q : Option String) (d : String) : String :=
  match q with
  | none => d
  | some s => if s = "" then d else s

/-- Two's-complement wrap of a mathematical integer into the int64 range,
the behaviour of Go int arithmetic on overflow. -/
def wrap64 (v : Int) : Int := (v + 2 ^ 63) % 2 ^ 64 - 2 ^ 63

/-- The pagination parameters FindNotes computes: the coerced page, the
coerced limit, and the offset (intPage - 1) * intLimit evaluated in Go
64-bit int arithmetic (each operation wraps), handed to the store. The
query defaults are the strings 1 and 10. -/
def listParams (pageQ limitQ : Option String) : Int × Int × Int :=
  let intPage := goAtoi (queryOr pageQ "1")
  let intLimit := goAtoi (queryOr limitQ "10")
  (intPage, intLimit, wrap64 (wrap64 (intPage - 1) * intLimit))

/-- controllers.FindNotes: compute limit and offset, run the page query,
map a store error to 502 and success to 200 with the count and the list. -/
def FindNotes (pageQ limitQ : Option String)
    (store : Int → Int → Except String (List Note)) : Response :=
  let p := listParams pageQ limitQ
  match store p.2.1 p.2.2 with
  | .error msg => ⟨502, .envelope "error" msg⟩
  | .ok notes => ⟨200, .listData "success" notes.length notes⟩

/-- The updates map built by controllers.UpdateNote: a string key enters
the map only when the payload field is non-empty, published only when the
pointer is non-nil, and updated_at is always set to now. -/
structure Updates where
  title : Option String
  category : Option String
  content : Option String
  published : Option Bool
  updated_at : Option Nat
deriving DecidableEq, Repr

/-- Builds the updates map exactly as UpdateNote does. -/
def buildUpdates (payload : UpdateNoteSchema) (now : Nat) : Updates :=
  { title := if payload.title ≠ "" then some payload.title else none
    category := if payload.category ≠ "" then some payload.category else none
    content := if payload.content ≠ "" then some payload.content else none
    published := if payload.published ≠ none then payload.published else none
    updated_at := some now }

/-- The store write for a partial update (gorm Updates with a map): each
key present in the map is assigned to its column, absent keys leave the
column untouched. Modelled from the spec contract for UpdateFields, since
the gateway itself is the external ORM. -/
def applyUpdates (note : Note) (u : Updates) : Note :=
  { note with
    title := u.title.getD note.title
    category := u.category.getD note.category
    content := u.content.getD note.content
    published := u.published.getD note.published
    updatedAt := u.updated_at.getD note.updatedAt }

/-- The note row as stored after an update request on an existing note:
the updates map is applied when the write succeeds and the row is left as
it was when the write fails. -/
def updateStoredNote (note : Note) (payload : UpdateNoteSchema) (now : Nat)
    (writeRes : UpdateWriteResult) : Note :=
  match writeRes with
  | .ok => applyUpdates note (buildUpdates payload now)
  | .storeErr _ => note

/-- controllers.UpdateNote: decode, existence check via DB.First, build
the updates map, issue the write, and answer 200 with the in-memory note
carrying the intended mutations. The write result is ignored by the code,
which is why the last argument is unused. -/
def UpdateNote (decoded : Except String UpdateNoteSchema) (findRes : FindResult)
    (now : Nat) (_writeRes : UpdateWriteResult) : Response :=
  match decoded with
  | .error e => ⟨400, .envelope "fail" e⟩
  | .ok payload =>
    match findRes with
    | .notFound => ⟨404, .envelope "fail" "No note with that ID exists"⟩
    | .storeErr msg => ⟨502, .envelope "fail" msg⟩
    | .found note =>
      ⟨200, .noteData "success" (applyUpdates note (buildUpdates payload now))⟩

/-- controllers.FindNoteById: existence check and the three outcomes. -/
def FindNoteById (findRes : FindResult) : Response :=
  match findRes with
  | .notFound => ⟨404, .envelope "fail" "No note with that ID exists"⟩
  | .storeErr msg => ⟨502, .envelope "fail" msg⟩
  | .found note => ⟨200, .noteData "success" note⟩

/-- controllers.DeleteNote: the RowsAffected field is inspected first, the
Error field only afterwards. -/
def DeleteNote (res : DeleteResult) : Response :=
  if res.rowsAffected = 0 then
    ⟨404, .envelope "fail" "No note with that ID exists"⟩
  else
    match res.error with
    | some msg => ⟨502, .envelope "error" msg⟩
    | none => ⟨204, .empty⟩

/-- Claim C1, counterexample: a delete where the store reports an error and
zero rows were affected is answered 404, not 502, because DeleteNote tests
RowsAffected before Error. -/
theorem c1_counterexample :
    (DeleteNote ⟨0, some "connection refused"⟩).code = 404 ∧
    (DeleteNote ⟨0, some "connection refused"⟩).code ≠ 502 := by
  decide

/-- Claim C1 (amended): DeleteNote answers 404 exactly when zero rows were
affected, even when the store also reports an error, and 502 exactly when
some row was affected and the store still reports an error. -/
theorem c1_delete_status_amended (res : DeleteResult) :
    ((DeleteNote res).code = 404 ↔ res.rowsAffected = 0) ∧
    ((DeleteNote res).code = 502 ↔ (res.rowsAffected ≠ 0 ∧ res.error ≠ none)) := by
  rcases res with ⟨n, e⟩
  by_cases h : n = 0
  · subst h
    cases e <;> simp [DeleteNote]
  · cases e <;> simp [DeleteNote, h]

/-- Claim C2 (code bug): UpdateNote never reads the result of the store
write, so a StoreError during the write produces the same 200 response as
a successful write, evaluated here at an existing note with an empty patch
body and a failing write. -/
theorem c2_update_store_error_swallowed :
    (UpdateNote (.ok ⟨"", "", "", none⟩)
        (.found ⟨"id1", "t", "c", "cat", true, 1, 1⟩) 5
        (.storeErr "connection reset")).code = 200 ∧
    UpdateNote (.ok ⟨"", "", "", none⟩)
        (.found ⟨"id1", "t", "c", "cat", true, 1, 1⟩) 5
        (.storeErr "connection reset") =
      UpdateNote (.ok ⟨"", "", "", none⟩)
        (.found ⟨"id1", "t", "c", "cat", true, 1, 1⟩) 5 .ok := by
  decide

/-- Claim C10: an update request with an all-absent payload on an existing
note is answered 200, and the stored row changes only in updatedAt, which
is set to the request time. -/
theorem c10_empty_update_frame (note : Note) (now : Nat) :
    (UpdateNote (.ok ⟨"", "", "", none⟩) (.found note) now .ok).code = 200 ∧
    updateStoredNote note ⟨"", "", "", none⟩ now .ok =
      { note with updatedAt := now } := by
  refine ⟨rfl, ?_⟩
  obtain ⟨i, t, c, k, p, ca, ua⟩ := note
  simp [updateStoredNote, applyUpdates, buildUpdates]

/-- Claim C4: an update payload carrying published explicitly false flips a
stored true to false, while a payload with published absent leaves the
stored published value untouched. -/
theorem c4_published_tristate (note : Note) (p1 p2 : UpdateNoteSchema) (now : Nat)
    (h1 : p1.published = some false) (_hn : note.published = true)
    (h2 : p2.published = none) :
    (updateStoredNote note p1 now .ok).published = false ∧
    (updateStoredNote note p2 now .ok).published = note.published := by
  constructor
  · simp [updateStoredNote, applyUpdates, buildUpdates, h1]
  · simp [updateStoredNote, applyUpdates, buildUpdates, h2]

/-- Witness for C4 at a concrete note and two concrete payloads. -/
theorem c4_published_tristate_witness :
    ((⟨"", "", "", some false⟩ : UpdateNoteSchema).published = some false ∧
     (⟨"i", "t", "c", "k", true, 0, 0⟩ : Note).published = true ∧
     (⟨"", "", "", none⟩ : UpdateNoteSchema).published = none) ∧
    ((updateStoredNote ⟨"i", "t", "c", "k", true, 0, 0⟩
        ⟨"", "", "", some false⟩ 5 .ok).published = false ∧
     (updateStoredNote ⟨"i", "t", "c", "k", true, 0, 0⟩
        ⟨"", "", "", none⟩ 5 .ok).published =
       (⟨"i", "t", "c", "k", true, 0, 0⟩ : Note).published) :=
  ⟨⟨by decide, by decide, by decide⟩,
   c4_published_tristate ⟨"i", "t", "c", "k", true, 0, 0⟩
     ⟨"", "", "", some false⟩ ⟨"", "", "", none⟩ 5
     (by decide) (by decide) (by decide)⟩

/-- Claim C5: a create request with non-empty title and content whose
insert succeeds is answered 201 with a note taking title, content,
category and published from the input and both timestamps equal to the
request time (hence createdAt equals updatedAt). -/
theorem c5_create_success (payload : CreateNoteSchema) (now : Nat) (gid : String)
    (ht : payload.title ≠ "") (hc : payload.content ≠ "") :
    CreateNoteHandler (.ok payload) now (.ok gid) =
      ⟨201, .noteData "success"
        ⟨gid, payload.title, payload.content, payload.category,
          payload.published, now, now⟩⟩ := by
  simp [CreateNoteHandler, validateCreateNote, ht, hc]

/-- Witness for C5 at a concrete payload. -/
theorem c5_create_success_witness :
    ((⟨"T", "C", "K", true⟩ : CreateNoteSchema).title ≠ "" ∧
     (⟨"T", "C", "K", true⟩ : CreateNoteSchema).content ≠ "") ∧
    CreateNoteHandler (.ok ⟨"T", "C", "K", true⟩) 7 (.ok "gid") =
      ⟨201, .noteData "success" ⟨"gid", "T", "C", "K", true, 7, 7⟩⟩ :=
  ⟨⟨by decide, by decide⟩,
   c5_create_success ⟨"T", "C", "K", true⟩ 7 "gid" (by decide) (by decide)⟩

/-- Claim C6: an update that sets only category (title and content empty,
published absent) stores the new category and the refreshed updatedAt and
leaves id, title, content, published and createdAt unchanged. -/
theorem c6_update_category_frame (note : Note) (cat : String) (now : Nat)
    (hc : cat ≠ "") :
    updateStoredNote note ⟨"", "", cat, none⟩ now .ok =
      { note with category := cat, updatedAt := now } := by
  obtain ⟨i, t, c, k, p, ca, ua⟩ := note
  simp [updateStoredNote, applyUpdates, buildUpdates, hc]

/-- Witness for C6 at a concrete note and category. -/
theorem c6_update_category_frame_witness :
    ("newcat" : String) ≠ "" ∧
    updateStoredNote ⟨"i", "t", "c", "k", true, 1, 2⟩
        ⟨"", "", "newcat", none⟩ 9 .ok =
      ⟨"i", "t", "c", "newcat", true, 1, 9⟩ :=
  ⟨by decide,
   c6_update_category_frame ⟨"i", "t", "c", "k", true, 1, 2⟩ "newcat" 9 (by decide)⟩

/-- Claim C9: an update payload field among title, content and category
that decodes to the empty string leaves the stored field unchanged, and
consequently an update can never turn a non-empty stored title, content or
category into the empty string. -/
theorem c9_empty_fields_absent (note : Note) (payload : UpdateNoteSchema)
    (now : Nat) :
    (payload.title = "" →
        (updateStoredNote note payload now .ok).title = note.title) ∧
    (payload.content = "" →
        (updateStoredNote note payload now .ok).content = note.content) ∧
    (payload.category = "" →
        (updateStoredNote note payload now .ok).category = note.category) ∧
    (note.title ≠ "" → (updateStoredNote note payload now .ok).title ≠ "") ∧
    (note.content ≠ "" → (updateStoredNote note payload now .ok).content ≠ "") ∧
    (note.category ≠ "" → (updateStoredNote note payload now .ok).category ≠ "") := by
  refine ⟨?_, ?_, ?_, ?_, ?_, ?_⟩ <;> intro h
  · simp [updateStoredNote, applyUpdates, buildUpdates, h]
  · simp [updateStoredNote, applyUpdates, buildUpdates, h]
  · simp [updateStoredNote, applyUpdates, buildUpdates, h]
  · by_cases hp : payload.title = ""
    · simpa [updateStoredNote, applyUpdates, buildUpdates, hp] using h
    · simp [updateStoredNote, applyUpdates, buildUpdates, hp]
  · by_cases hp : payload.content = ""
    · simpa [updateStoredNote, applyUpdates, buildUpdates, hp] using h
    · simp [updateStoredNote, applyUpdates, buildUpdates, hp]
  · by_cases hp : payload.category = ""
    · simpa [updateStoredNote, applyUpdates, buildUpdates, hp] using h
    · simp [updateStoredNote, applyUpdates, buildUpdates, hp]

/-- Witness for C9 at a concrete note and an all-empty payload. -/
theorem c9_empty_fields_absent_witness :
    (updateStoredNote ⟨"i", "t", "c", "k", true, 0, 0⟩
        ⟨"", "", "", none⟩ 5 .ok).title = "t" ∧
    (updateStoredNote ⟨"i", "t", "c", "k", true, 0, 0⟩
        ⟨"", "", "", none⟩ 5 .ok).content = "c" ∧
    (updateStoredNote ⟨"i", "t", "c", "k", true, 0, 0⟩
        ⟨"", "", "", none⟩ 5 .ok).category = "k" ∧
    (updateStoredNote ⟨"i", "t", "c", "k", true, 0, 0⟩
        ⟨"", "", "", none⟩ 5 .ok).title ≠ "" ∧
    (updateStoredNote ⟨"i", "t", "c", "k", true, 0, 0⟩
        ⟨"", "", "", none⟩ 5 .ok).content ≠ "" ∧
    (updateStoredNote ⟨"i", "t", "c", "k", true, 0, 0⟩
        ⟨"", "", "", none⟩ 5 .ok).category ≠ "" := by
  obtain ⟨h1, h2, h3, h4, h5, h6⟩ :=
    c9_empty_fields_absent ⟨"i", "t", "c", "k", true, 0, 0⟩ ⟨"", "", "", none⟩ 5
  exact ⟨h1 rfl, h2 rfl, h3 rfl, h4 (by decide), h5 (by decide), h6 (by decide)⟩

/-- A syntactically invalid string makes atoiCore return zero. -/
theorem atoiCore_invalid (l : List Char) (h : atoiValidCore l = false) :
    atoiCore l = 0 := by
  cases l with
  | nil => rfl
  | cons c rest =>
    simp only [atoiValidCore] at h
    simp only [atoiCore]
    split_ifs at h ⊢ <;> simp_all

/-- Numeral values of the int64 bounds. -/
theorem intMax64_eq : intMax64 = 9223372036854775807 := by
  unfold intMax64
  norm_num

theorem intMin64_eq : intMin64 = -9223372036854775808 := by
  unfold intMin64
  norm_num

/-- wrap64 spelled with numerals. -/
theorem wrap64_eq (v : Int) :
    wrap64 v = (v + 9223372036854775808) % 18446744073709551616 -
      9223372036854775808 := by
  unfold wrap64
  norm_num

/-- Inside the int64 range the wrap is the identity. -/
theorem wrap64_eq_of_range (v : Int) (h1 : intMin64 ≤ v) (h2 : v ≤ intMax64) :
    wrap64 v = v := by
  rw [intMin64_eq] at h1
  rw [intMax64_eq] at h2
  rw [wrap64_eq, Int.emod_eq_of_lt (by omega) (by omega)]
  omega

/-- clamp64 lands in the int64 range. -/
theorem clamp64_range (v : Int) :
    intMin64 ≤ clamp64 v ∧ clamp64 v ≤ intMax64 := by
  unfold clamp64
  split_ifs <;> simp only [intMin64_eq, intMax64_eq] at * <;> omega

/-- goAtoi always lands in the int64 range. -/
theorem goAtoi_range (s : String) :
    intMin64 ≤ goAtoi s ∧ goAtoi s ≤ intMax64 := by
  have h0 : intMin64 ≤ (0 : Int) ∧ (0 : Int) ≤ intMax64 := by decide
  unfold goAtoi atoiCore
  split
  · exact h0
  · split_ifs <;> first | exact h0 | exact clamp64_range _

/-- Claim C7, counterexample: at page = limit = 4294967296 the offset the
program computes wraps in int64 arithmetic to -4294967296, so it is not
the mathematical (page - 1) * limit over the coerced integers. -/
theorem c7_counterexample :
    (listParams (some "4294967296") (some "4294967296")).2.2 = -4294967296 ∧
    (listParams (some "4294967296") (some "4294967296")).2.2 ≠
      ((listParams (some "4294967296") (some "4294967296")).1 - 1) *
        (listParams (some "4294967296") (some "4294967296")).2.1 := by
  decide

/-- Claim C7 (amended): page defaults to 1 and limit to 10 when the query
strings are absent, a non-numeric string is coerced to zero, and the
offset handed to the page query is (page - 1) * limit over the coerced
values evaluated in wrapping 64-bit arithmetic, which agrees with the
mathematical product whenever page - 1 and the product lie in the int64
range. -/
theorem c7_list_params_amended (pageQ limitQ : Option String) (s : String)
    (hinv : goAtoiValid s = false) :
    listParams none none = (1, 10, 0) ∧
    goAtoi s = 0 ∧
    (listParams pageQ limitQ).1 = goAtoi (queryOr pageQ "1") ∧
    (listParams pageQ limitQ).2.1 = goAtoi (queryOr limitQ "10") ∧
    (listParams pageQ limitQ).2.2 =
      wrap64 (wrap64 ((listParams pageQ limitQ).1 - 1) *
        (listParams pageQ limitQ).2.1) ∧
    (intMin64 ≤ (listParams pageQ limitQ).1 - 1 →
      intMin64 ≤ ((listParams pageQ limitQ).1 - 1) *
        (listParams pageQ limitQ).2.1 →
      ((listParams pageQ limitQ).1 - 1) * (listParams pageQ limitQ).2.1 ≤
        intMax64 →
      (listParams pageQ limitQ).2.2 =
        ((listParams pageQ limitQ).1 - 1) * (listParams pageQ limitQ).2.1) := by
  refine ⟨by decide, atoiCore_invalid s.toList hinv, rfl, rfl, rfl, ?_⟩
  intro h1 h2 h3
  have hp : goAtoi (queryOr pageQ "1") ≤ intMax64 :=
    (goAtoi_range (queryOr pageQ "1")).2
  have h1' : intMin64 ≤ goAtoi (queryOr pageQ "1") - 1 := h1
  have h2' : intMin64 ≤
      (goAtoi (queryOr pageQ "1") - 1) * goAtoi (queryOr limitQ "10") := h2
  have h3' : (goAtoi (queryOr pageQ "1") - 1) * goAtoi (queryOr limitQ "10") ≤
      intMax64 := h3
  show wrap64 (wrap64 (goAtoi (queryOr pageQ "1") - 1) *
      goAtoi (queryOr limitQ "10")) =
    (goAtoi (queryOr pageQ "1") - 1) * goAtoi (queryOr limitQ "10")
  rw [wrap64_eq_of_range _ h1' (by linarith)]
  exact wrap64_eq_of_range _ h2' h3'

/-- Witness for C7 with a non-numeric string and concrete query values
inside the int64 range. -/
theorem c7_list_params_amended_witness :
    goAtoiValid "abc" = false ∧
    (listParams none none = (1, 10, 0) ∧
     goAtoi "abc" = 0 ∧
     (listParams (some "3") (some "5")).1 =
       goAtoi (queryOr (some "3") "1") ∧
     (listParams (some "3") (some "5")).2.1 =
       goAtoi (queryOr (some "5") "10") ∧
     (listParams (some "3") (some "5")).2.2 =
       wrap64 (wrap64 ((listParams (some "3") (some "5")).1 - 1) *
         (listParams (some "3") (some "5")).2.1) ∧
     (listParams (some "3") (some "5")).2.2 =
       ((listParams (some "3") (some "5")).1 - 1) *
         (listParams (some "3") (some "5")).2.1) := by
  obtain ⟨a, b, c, d, e, f⟩ :=
    c7_list_params_amended (some "3") (some "5") "abc" (by decide)
  exact ⟨by decide, a, b, c, d, e, f (by decide) (by decide) (by decide)⟩

/-- hasPre answers whether the pattern is a leading segment. -/
theorem hasPre_iff (pat : List Char) :
    ∀ l : List Char, hasPre pat l = true ↔ ∃ rest, l = pat ++ rest := by
  induction pat with
  | nil =>
    intro l
    simp [hasPre]
  | cons a as ih =>
    intro l
    cases l with
    | nil => simp [hasPre]
    | cons b bs =>
      simp only [hasPre, Bool.and_eq_true, beq_iff_eq, ih bs, List.cons_append,
        List.cons.injEq]
      constructor
      · rintro ⟨hab, rest, hr⟩
        exact ⟨rest, hab.symm, hr⟩
      · rintro ⟨rest, hab, hr⟩
        exact ⟨hab.symm, rest, hr⟩

/-- subList answers whether the pattern occurs contiguously in hay. -/
theorem subList_iff (pat : List Char) :
    ∀ hay : List Char, subList pat hay = true ↔
      ∃ pre post, hay = pre ++ pat ++ post := by
  intro hay
  induction hay with
  | nil =>
    simp only [subList, List.isEmpty_iff]
    constructor
    · intro h
      exact ⟨[], [], by simp [h]⟩
    · rintro ⟨pre, post, hp⟩
      have h2 : (pre ++ pat) ++ post = [] := hp.symm
      rcases List.append_eq_nil.mp h2 with ⟨h3, _⟩
      exact (List.append_eq_nil.mp h3).2
  | cons b bs ih =>
    simp only [subList, Bool.or_eq_true, hasPre_iff, ih]
    constructor
    · rintro (⟨rest, hr⟩ | ⟨pre, post, hp⟩)
      · exact ⟨[], rest, by simpa using hr⟩
      · exact ⟨b :: pre, post, by simp [hp]⟩
    · rintro ⟨pre, post, hp⟩
      cases pre with
      | nil =>
        left
        exact ⟨post, by simpa using hp⟩
      | cons x xs =>
        right
        simp only [List.cons_append, List.cons.injEq] at hp
        exact ⟨xs, post, hp.2⟩

/-- containsDupKey is true exactly when the duplicate-key phrase occurs as
a contiguous substring of the message. -/
theorem containsDupKey_iff (msg : String) :
    containsDupKey msg = true ↔
      ∃ pre post, msg.toList = pre ++ dupKeyMsg.toList ++ post :=
  subList_iff dupKeyMsg.toList msg.toList

/-- Claim C8: for a valid create payload whose insert fails, the handler
answers 409 exactly when the error message contains the substring
duplicate key value violates unique, and 502 for every other message. -/
theorem c8_conflict_substring (payload : CreateNoteSchema) (now : Nat)
    (msg : String) (ht : payload.title ≠ "") (hc : payload.content ≠ "") :
    ((∃ pre post, msg.toList = pre ++ dupKeyMsg.toList ++ post) →
        (CreateNoteHandler (.ok payload) now (.fail msg)).code = 409) ∧
    ((¬ ∃ pre post, msg.toList = pre ++ dupKeyMsg.toList ++ post) →
        (CreateNoteHandler (.ok payload) now (.fail msg)).code = 502) := by
  have hval : validateCreateNote payload = [] := by
    simp [validateCreateNote, ht, hc]
  constructor
  · intro hsub
    have hb : containsDupKey msg = true := (containsDupKey_iff msg).mpr hsub
    simp [CreateNoteHandler, hval, hb]
  · intro hsub
    have hb : containsDupKey msg = false := by
      rcases Bool.eq_false_or_eq_true (containsDupKey msg) with h | h
      · exact absurd ((containsDupKey_iff msg).mp h) hsub
      · exact h
    simp [CreateNoteHandler, hval, hb]

/-- Witness for C8: a concrete postgres-style message containing the
phrase is answered 409. -/
theorem c8_conflict_substring_witness :
    ((⟨"A", "B", "", false⟩ : CreateNoteSchema).title ≠ "" ∧
     (⟨"A", "B", "", false⟩ : CreateNoteSchema).content ≠ "") ∧
    (CreateNoteHandler (.ok ⟨"A", "B", "", false⟩) 0
        (.fail "pq: duplicate key value violates unique constraint")).code = 409 :=
  ⟨⟨by decide, by decide⟩,
   (c8_conflict_substring ⟨"A", "B", "", false⟩ 0
       "pq: duplicate key value violates unique constraint"
       (by decide) (by decide)).1
     ⟨"pq: ".toList, " constraint".toList, by decide⟩⟩

/-- Claim C3, counterexample: a create request failing validation is
answered 400 with the bare violation list, which lacks the status plus
message envelope shape. -/
theorem c3_counterexample :
    (CreateNoteHandler (.ok ⟨"", "some content", "", false⟩) 0
        (.ok "gid")).code = 400 ∧
    isEnvelope (CreateNoteHandler (.ok ⟨"", "some content", "", false⟩) 0
        (.ok "gid")).body = false := by
  decide

/-- Claim C3 (amended): every error response of every handler carries the
status plus message envelope, except the create validation failure, whose
body is the bare list of field violations. -/
theorem c3_envelope_amended :
    (∀ res : DeleteResult, 400 ≤ (DeleteNote res).code →
        isEnvelope (DeleteNote res).body = true) ∧
    (∀ findRes : FindResult, 400 ≤ (FindNoteById findRes).code →
        isEnvelope (FindNoteById findRes).body = true) ∧
    (∀ (pageQ limitQ : Option String)
        (store : Int → Int → Except String (List Note)),
        400 ≤ (FindNotes pageQ limitQ store).code →
        isEnvelope (FindNotes pageQ limitQ store).body = true) ∧
    (∀ (decoded : Except String UpdateNoteSchema) (findRes : FindResult)
        (now : Nat) (writeRes : UpdateWriteResult),
        400 ≤ (UpdateNote decoded findRes now writeRes).code →
        isEnvelope (UpdateNote decoded findRes now writeRes).body = true) ∧
    (∀ (decoded : Except String CreateNoteSchema) (now : Nat)
        (ins : InsertOutcome),
        400 ≤ (CreateNoteHandler decoded now ins).code →
        isEnvelope (CreateNoteHandler decoded now ins).body = true ∨
          ∃ payload, decoded = .ok payload ∧ validateCreateNote payload ≠ [] ∧
            (CreateNoteHandler decoded now ins).body =
              .violations (validateCreateNote payload)) := by
  refine ⟨?_, ?_, ?_, ?_, ?_⟩
  · rintro ⟨n, e⟩ h
    by_cases hn : n = 0
    · simp [DeleteNote, hn, isEnvelope]
    · cases e with
      | none => simp [DeleteNote, hn] at h
      | some m => simp [DeleteNote, hn, isEnvelope]
  · intro fr h
    cases fr with
    | found note => simp [FindNoteById] at h
    | notFound => simp [FindNoteById, isEnvelope]
    | storeErr m => simp [FindNoteById, isEnvelope]
  · intro pq lq st h
    cases hst : st (listParams pq lq).2.1 (listParams pq lq).2.2 with
    | error m => simp [FindNotes, hst, isEnvelope]
    | ok ns => simp [FindNotes, hst] at h
  · intro d fr now w h
    cases d with
    | error e => simp [UpdateNote, isEnvelope]
    | ok p =>
      cases fr with
      | found note => simp [UpdateNote] at h
      | notFound => simp [UpdateNote, isEnvelope]
      | storeErr m => simp [UpdateNote, isEnvelope]
  · intro d now ins h
    cases d with
    | error e =>
      left
      simp [CreateNoteHandler, isEnvelope]
    | ok p =>
      by_cases hv : validateCreateNote p = []
      · left
        cases ins with
        | ok gid => simp [CreateNoteHandler, hv] at h
        | fail m =>
          by_cases hd : containsDupKey m
          · simp [CreateNoteHandler, hv, hd, isEnvelope]
          · simp [CreateNoteHandler, hv, hd, isEnvelope]
      · right
        exact ⟨p, rfl, hv, by simp [CreateNoteHandler, hv]⟩

/-- Witness for C3 at concrete error outcomes of each handler. -/
theorem c3_envelope_amended_witness :
    isEnvelope (DeleteNote ⟨0, some "e1"⟩).body = true ∧
    isEnvelope (FindNoteById .notFound).body = true ∧
    isEnvelope (FindNotes none none (fun _ _ => Except.error "e2")).body = true ∧
    isEnvelope (UpdateNote (Except.error "bad") .notFound 0 .ok).body = true ∧
    (isEnvelope (CreateNoteHandler (Except.error "bad") 0 (.ok "g")).body = true ∨
      ∃ payload,
        (Except.error "bad" : Except String CreateNoteSchema) = .ok payload ∧
        validateCreateNote payload ≠ [] ∧
        (CreateNoteHandler (Except.error "bad") 0 (.ok "g")).body =
          .violations (validateCreateNote payload)) := by
  refine ⟨?_, ?_, ?_, ?_, ?_⟩
  · exact c3_envelope_amended.1 ⟨0, some "e1"⟩ (by decide)
  · exact c3_envelope_amended.2.1 .notFound (by decide)
  · exact c3_envelope_amended.2.2.1 none none (fun _ _ => Except.error "e2")
      (by decide)
  · exact c3_envelope_amended.2.2.2.1 (Except.error "bad") .notFound 0 .ok
      (by decide)
  · exact c3_envelope_amended.2.2.2.2 (Except.error "bad") 0 (.ok "g")
      (by decide)

end GoNotes
